import Mathlib

/-!
# RoamMind — verification of the conversation-orchestration core

Shallow embedding of the parts of the RoamMind source that the spec's claims
are about:

* `src/infrastructure/flight_service.py` — the resilient outbound-call wrapper
  `FlightService._call_api` (retry loop, exponential backoff, error classes);
* `src/infrastructure/azure_openai.py` — the LLM "enhancement" operations;
* `src/core/models.py` — `Conversation` / `Message` and `add_message`;
* `src/core/orchestrator.py` — the in-memory session store with TTL expiry,
  keyword dispatch in `process_user_input`, and `_generate_suggestions`;
* `src/agents/flight_agent.py` — parameter validation and error containment.

Timestamps are modelled as integers (minutes), network and LLM effects as
explicit outcome oracles passed to the embedded functions.
-/

deriving instance DecidableEq for Except

namespace RoamMind

namespace FlightService

/-- Outcome of one underlying HTTP attempt inside `FlightService._call_api`.
`connError` models an `aiohttp.ClientError` that is not a response error
(connection failure and the like); `respError` models
`aiohttp.ClientResponseError`, which `response.raise_for_status()` raises for a
non-2xx HTTP status.  In aiohttp, `ClientResponseError` is a subclass of
`ClientError`. -/
inductive AttemptOutcome where
  | success (data : String)
  | connError (msg : String)
  | respError (status : Nat) (msg : String)
deriving DecidableEq, Repr

/-- Python `isinstance(e, aiohttp.ClientError)`: true for connection errors and
also for response errors, because `ClientResponseError` subclasses
`ClientError`. -/
def AttemptOutcome.isClientError : AttemptOutcome → Bool
  | .connError _ => true
  | .respError _ _ => true
  | .success _ => false

/-- Python `isinstance(e, aiohttp.ClientResponseError)`. -/
def AttemptOutcome.isClientResponseError : AttemptOutcome → Bool
  | .respError _ _ => true
  | _ => false

/-- How `_call_api` terminates: a normal return, one of the two exceptions it
raises (each wrapping the attempt outcome that caused it), or the implicit
`return None` if the `for` loop were to complete. -/
inductive CallResult where
  | ok (data : String)
  | apiError (cause : AttemptOutcome)
  | apiConnectionError (cause : AttemptOutcome)
  | pyNone
deriving DecidableEq, Repr

/-- `max_retries = 3` in `_call_api`. -/
def max_retries : Nat := 3

/-- Observable behaviour of one `_call_api` invocation: how it terminated,
which attempt numbers were executed (in order), and the backoff sleeps
(in seconds) performed between attempts, in order. -/
structure CallTrace where
  result : CallResult
  attempts : List Nat
  sleeps : List Nat
deriving DecidableEq, Repr

/-- The body of `_call_api`'s `for attempt in range(1, max_retries + 1)` loop.
`outcomes k` is what the request on the `k`-th attempt would do.  The
`except aiohttp.ClientError` clause comes first in the source and therefore
also catches `ClientResponseError` (its subclass); the later
`except aiohttp.ClientResponseError` clause is consequently unreachable. -/
def callApiLoop (outcomes : Nat → AttemptOutcome) : List Nat → CallTrace
  | [] => { result := .pyNone, attempts := [], sleeps := [] }
  | attempt :: rest =>
    match outcomes attempt with
    | .success d => { result := .ok d, attempts := [attempt], sleeps := [] }
    | e =>
      if e.isClientError then
        if attempt == max_retries then
          { result := .apiConnectionError e, attempts := [attempt], sleeps := [] }
        else
          let t := callApiLoop outcomes rest
          { result := t.result, attempts := attempt :: t.attempts,
            sleeps := 2 ^ attempt :: t.sleeps }
      else if e.isClientResponseError then
        { result := .apiError e, attempts := [attempt], sleeps := [] }
      else
        { result := .pyNone, attempts := [attempt], sleeps := [] }

/-- `FlightService._call_api`: run the loop over attempts `1, ..., max_retries`. -/
def _call_api (outcomes : Nat → AttemptOutcome) : CallTrace :=
  callApiLoop outcomes (List.range' 1 max_retries)

end FlightService

/-- Attempt oracle on which every attempt fails with an HTTP 404 response
error (a 4xx-equivalent, non-transient failure). -/
def resp404 : Nat → FlightService.AttemptOutcome :=
  fun _ => .respError 404 "Not Found"

/-- Attempt oracle on which every attempt fails with a connection error
(a transient failure). -/
def connRefused : Nat → FlightService.AttemptOutcome :=
  fun _ => .connError "Connection refused"

/-! ## core/models.py -/

/-- `core.models.Message`, restricted to the fields the orchestrator writes and
reads.  The `id` field is a fresh UUID drawn at construction time and is read
nowhere in the claims' code, so it is not modelled; `timestamp` is
`datetime.now(timezone.utc)` at construction, in minutes. -/
structure Message where
  content : String
  role : String
  timestamp : Int
deriving DecidableEq, Repr

/-- `core.models.ConversationContext`.  Only `user_id` is ever read or written
on the paths under verification; the remaining fields default to empty
dictionaries / `None` and stay that way. -/
structure ConversationContext where
  user_id : String
deriving DecidableEq, Repr

/-- `core.models.Conversation`. -/
structure Conversation where
  id : String
  user_id : String
  context : ConversationContext
  messages : List Message
  created_at : Int
  updated_at : Int
  active : Bool
deriving DecidableEq, Repr

/-- `Conversation.add_message`: append a freshly-constructed `Message` to
`messages` and bump `updated_at`.  `now` stands for the
`datetime.now(timezone.utc)` drawn inside the call. -/
def Conversation.add_message (c : Conversation) (content role : String) (now : Int) :
    Conversation :=
  { c with
    messages := c.messages ++ [{ content := content, role := role, timestamp := now }]
    updated_at := now }

/-- Replay of successive `add_message` calls: each element of `calls` is the
`(content, role, now)` triple of one call. -/
def add_messages (c : Conversation) (calls : List (String × String × Int)) :
    Conversation :=
  calls.foldl (fun acc p => acc.add_message p.1 p.2.1 p.2.2) c

/-! ## orchestrator.py — session store -/

namespace Orchestrator

/-- The module-level dict `session_conversations`: conversation id to
`(Conversation, last_active)` pairs, modelled as an association list in
insertion order. -/
abbrev SessionStore := List (String × Conversation × Int)

/-- `SESSION_TIMEOUT = timedelta(minutes=30)`, with time in minutes. -/
def SESSION_TIMEOUT : Int := 30

/-- Python `session_conversations.get(conversation_id)`. -/
def storeGet (store : SessionStore) (conversation_id : String) :
    Option (Conversation × Int) :=
  (store.find? (fun e => e.1 == conversation_id)).map (fun e => e.2)

/-- Python `session_conversations[conversation_id] = v`: replace the entry in
place when the key is present, append otherwise. -/
def storeSet (store : SessionStore) (conversation_id : String) (v : Conversation × Int) :
    SessionStore :=
  if store.any (fun e => e.1 == conversation_id) then
    store.map (fun e => if e.1 == conversation_id then (conversation_id, v) else e)
  else
    store ++ [(conversation_id, v)]

/-- `Orchestrator.cleanup_session`:
`if conversation_id in session_conversations: del session_conversations[conversation_id]`. -/
def cleanup_session (conversation_id : String) (store : SessionStore) : SessionStore :=
  if store.any (fun e => e.1 == conversation_id) then
    store.filter (fun e => !(e.1 == conversation_id))
  else store

/-- `Orchestrator._cleanup_expired_sessions`: collect the ids whose
`last_active` lies more than `SESSION_TIMEOUT` in the past, then delete each of
them via `cleanup_session`. -/
def _cleanup_expired_sessions (now : Int) (store : SessionStore) : SessionStore :=
  let expired :=
    (store.filter (fun e => decide (now - e.2.2 > SESSION_TIMEOUT))).map (fun e => e.1)
  expired.foldl (fun s i => cleanup_session i s) store

/-- `Orchestrator.load_conversation_history`: a bare
`session_conversations.get(conversation_id)`.  Note that it performs no expiry
sweep and no TTL check, and that it returns the stored
`(Conversation, last_active)` pair as-is. -/
def load_conversation_history (conversation_id : String) (store : SessionStore) :
    Option (Conversation × Int) :=
  storeGet store conversation_id

/-- `Orchestrator.get_conversation`: sweep expired sessions, then return the
conversation when its age is within the TTL, refreshing `last_active`;
otherwise return `None`.  Both `datetime.now` calls in the body are modelled by
the same instant `now`. -/
def get_conversation (now : Int) (conversation_id : String) (store : SessionStore) :
    Option Conversation × SessionStore :=
  let s1 := _cleanup_expired_sessions now store
  match storeGet s1 conversation_id with
  | some (conversation, last_active) =>
      if now - last_active ≤ SESSION_TIMEOUT then
        (some conversation, storeSet s1 conversation_id (conversation, now))
      else (none, s1)
  | none => (none, s1)

/-- `Orchestrator.save_conversation_state`: sweep, create a fresh session for
an unseen id (empty `messages`, a new `ConversationContext` whose `user_id` is
the freshly drawn UUID `fresh_user_id`), then append the message and refresh
the timestamp. -/
def save_conversation_state (now : Int) (fresh_user_id : String)
    (conversation_id message role : String) (store : SessionStore) : SessionStore :=
  let s1 := _cleanup_expired_sessions now store
  let s2 :=
    if s1.any (fun e => e.1 == conversation_id) then s1
    else
      storeSet s1 conversation_id
        ({ id := conversation_id, user_id := fresh_user_id
           context := { user_id := fresh_user_id }
           messages := [], created_at := now, updated_at := now, active := true }, now)
  match storeGet s2 conversation_id with
  | some (conversation, _) =>
      storeSet s2 conversation_id (conversation.add_message message role now, now)
  | none => s2

end Orchestrator

/-! ## orchestrator.py — keyword dispatch in `process_user_input` -/

/-- Python's substring test `needle in hay` on lists of characters:
true when `needle` is a contiguous sublist of `hay`. -/
def containsSub : List Char → List Char → Bool
  | _, [] => true
  | [], _ :: _ => false
  | c :: hay, needle => needle.isPrefixOf (c :: hay) || containsSub hay needle

/-- Python `needle in hay` on strings. -/
def strContains (hay needle : String) : Bool :=
  containsSub hay.toList needle.toList

/-- Python `s.lower()` (ASCII case mapping, which is all the dispatch keywords
need). -/
def py_lower (s : String) : String :=
  String.mk (s.data.map Char.toLower)

/-- Exceptions relevant to the verified paths, all subclasses of Python
`Exception` (so all are caught by an `except Exception` clause). -/
inductive PyExc where
  | jsonDecodeError
  | typeError
  | validationError (msg : String)
  | flightNotFoundError (msg : String)
  | exc (msg : String)
deriving DecidableEq, Repr

/-- `str(e)` for the exceptions above. -/
def PyExc.msg : PyExc → String
  | .jsonDecodeError => "Expecting value"
  | .typeError => "the JSON object must be str, bytes or bytearray"
  | .validationError m => m
  | .flightNotFoundError m => m
  | .exc m => m

namespace Orchestrator

/-- One `kernel.invoke` call made by `process_user_input`, carrying the
`KernelArguments({"input": message})` context. -/
inductive SkillInvocation where
  | search_excursions (input : String)
  | search_restaurants (input : String)
  | search_hotels (input : String)
  | search_flights (input : String)
deriving DecidableEq, Repr

/-- `Orchestrator._generate_suggestions`. -/
def _generate_suggestions (message : String) : List String :=
  if strContains message "flight" then
    ["Check flight prices", "View flight details", "Compare airlines"]
  else if strContains message "hotel" then
    ["View hotel amenities", "Check availability", "Compare rates"]
  else if strContains message "restaurant" then
    ["View menu", "Check reviews", "Make a reservation"]
  else if strContains message "excursion" then
    ["View activities", "Check availability", "Compare options"]
  else []

/-- The dict `process_user_input` returns.  The failure branch returns a dict
without a `"suggestions"` key, hence the `Option`. -/
structure ProcessResult where
  success : Bool
  response : String
  suggestions : Option (List String)
deriving DecidableEq, Repr

/-- Observable outcome of one `process_user_input` call: the returned dict,
the session store it leaves behind, and the `kernel.invoke` calls it made,
in order. -/
structure ProcessOutcome where
  result : ProcessResult
  store : SessionStore
  invoked : List SkillInvocation
deriving DecidableEq, Repr

/-- The `if "excursion" in lowered: ... elif ... elif ... elif ...` chain of
`process_user_input`: the first matching keyword selects the single skill that
is invoked; no keyword selects none. -/
def dispatch_skill (lowered message : String) : Option SkillInvocation :=
  if strContains lowered "excursion" then some (.search_excursions message)
  else if strContains lowered "restaurant" then some (.search_restaurants message)
  else if strContains lowered "hotel" then some (.search_hotels message)
  else if strContains lowered "flight" then some (.search_flights message)
  else none

/-- `Orchestrator.process_user_input`.  `skill` gives the outcome of each
`kernel.invoke` call (`.error` = the call raised); `fresh_user_id` stands for
the UUIDs drawn when sessions are created.  On any exception the enclosing
`except Exception` returns the generic failure dict; the user message saved
before the exception stays in the store. -/
def process_user_input (skill : SkillInvocation → Except PyExc String)
    (now : Int) (fresh_user_id : String)
    (conversation_id message : String) (store : SessionStore) : ProcessOutcome :=
  let store1 := save_conversation_state now fresh_user_id conversation_id message "user" store
  let lowered := (py_lower message)
  match dispatch_skill lowered message with
  | some inv =>
    match skill inv with
    | .ok response =>
        { result :=
            { success := true, response := response
              suggestions := some (_generate_suggestions lowered) }
          store := save_conversation_state now fresh_user_id conversation_id response
            "assistant" store1
          invoked := [inv] }
    | .error _ =>
        { result :=
            { success := false
              response := "An error occurred while processing your request."
              suggestions := none }
          store := store1
          invoked := [inv] }
  | none =>
    let response :=
      "Sorry, I couldn\x27t identify your request. Please mention excursion, restaurant, hotel, or flight."
    { result :=
        { success := true, response := response
          suggestions := some (_generate_suggestions lowered) }
      store := save_conversation_state now fresh_user_id conversation_id response
        "assistant" store1
      invoked := [] }

end Orchestrator

/-! ## infrastructure/azure_openai.py — enhancement operations -/

namespace AzureOpenAI

/-- A Python value decoded from JSON, abstracted to the shape information the
enhancement operations inspect (`isinstance(x, dict)` / `isinstance(x, list)`);
`tag` distinguishes concrete payloads. -/
inductive PyValue where
  | dict (tag : Nat)
  | list (tag : Nat)
  | strv (s : String)
  | null
deriving DecidableEq, Repr

/-- Python `isinstance(v, dict)`. -/
def PyValue.isDict : PyValue → Bool
  | .dict _ => true
  | _ => false

/-- Python `isinstance(v, list)`. -/
def PyValue.isList : PyValue → Bool
  | .list _ => true
  | _ => false

/-- What one chat-completion call yields, as seen inside `_call_openai`:
either the API raised, or it returned content whose `json.loads` outcome is
given (`none` meaning the content is not valid JSON, so `json.loads` raises
`JSONDecodeError`). -/
inductive OpenAIOutcome where
  | content (parsed : Option PyValue)
  | apiFailure (msg : String)
deriving DecidableEq, Repr

/-- `AzureOpenAIService._call_openai`: call the API and `json.loads` the
completion content.  Both except clauses re-raise: parse failures
(`except json.JSONDecodeError: ... raise`) and any other failure
(`except Exception: ... raise`). -/
def _call_openai (o : OpenAIOutcome) : Except PyExc PyValue :=
  match o with
  | .content (some v) => .ok v
  | .content none => .error .jsonDecodeError
  | .apiFailure m => .error (.exc m)

/-- `max_retries = 3`, the default of `_call_openai_with_retry`. -/
def openai_max_retries : Nat := 3

/-- The `for attempt in range(max_retries)` loop of `_call_openai_with_retry`:
return on success; on an exception, re-raise when `attempt == max_retries - 1`,
otherwise sleep `2 ** attempt` and continue.  A completed loop would make the
function return Python `None`. -/
def callOpenAIRetryLoop (os : Nat → OpenAIOutcome) : List Nat → Except PyExc PyValue
  | [] => .ok .null
  | attempt :: rest =>
    match _call_openai (os attempt) with
    | .ok v => .ok v
    | .error e =>
      if attempt == openai_max_retries - 1 then .error e
      else callOpenAIRetryLoop os rest

/-- `AzureOpenAIService._call_openai_with_retry` with the default
`max_retries = 3`, so over attempts `0, 1, 2`. -/
def _call_openai_with_retry (os : Nat → OpenAIOutcome) : Except PyExc PyValue :=
  callOpenAIRetryLoop os (List.range openai_max_retries)

/-- `AzureOpenAIService._parse_enhancement_response`: `json.loads` the
argument and return `None` on any failure (`except json.JSONDecodeError` and
`except Exception` both return `None`).  At the call sites modelled here the
argument is the object `_call_openai` already decoded, not a string, so
`json.loads` raises `TypeError` unless that object is itself a string;
`parseStr` stands for `json.loads` on strings. -/
def _parse_enhancement_response (parseStr : String → Option PyValue) :
    PyValue → Option PyValue
  | .strv s => parseStr s
  | _ => none

/-- `AzureOpenAIService.enhance_flight_results`: the whole body sits in a
try/except that falls back to the raw `flights`, and a response that is not a
list also falls back to `flights`; the operation itself never raises. -/
def enhance_flight_results (os : Nat → OpenAIOutcome) (flights : PyValue) : PyValue :=
  match _call_openai_with_retry os with
  | .ok v => if v.isList then v else flights
  | .error _ => flights

/-- `AzureOpenAIService.enhance_flight_details`: there is NO try/except around
the `_call_openai` call, so an exception it raises (in particular the
`JSONDecodeError` it re-raises for non-JSON completion content) propagates to
the caller; only a response that fails the `isinstance(enhanced, dict)` check
degrades to the original `flight_data`. -/
def enhance_flight_details (parseStr : String → Option PyValue)
    (o : OpenAIOutcome) (flight_data : PyValue) : Except PyExc PyValue :=
  match _call_openai o with
  | .error e => .error e
  | .ok response =>
    match _parse_enhancement_response parseStr response with
    | some enhanced => if enhanced.isDict then .ok enhanced else .ok flight_data
    | none => .ok flight_data

end AzureOpenAI

/-! ## agents/flight_agent.py -/

namespace FlightAgent

/-- A parameter value in `AgentRequest.parameters`. -/
inductive ParamValue where
  | str (s : String)
  | num (n : Int)
  | noneV
deriving DecidableEq, Repr

/-- Python truthiness of an optional parameter, as used by
`if not flight_number` and `if not all([flight_id, date_str])`:
absent, `None`, the empty string and `0` are falsy. -/
def truthy : Option ParamValue → Bool
  | none => false
  | some .noneV => false
  | some (.str s) => !s.isEmpty
  | some (.num n) => n != 0

/-- `agents.base.AgentRequest`, restricted to the fields the flight agent
reads (`context` is only forwarded to the extraction oracle). -/
structure AgentRequest where
  input : String
  parameters : List (String × ParamValue)
deriving DecidableEq, Repr

/-- `AgentRequest.get_parameter(key)` with the default `None`. -/
def AgentRequest.get_parameter (r : AgentRequest) (key : String) : Option ParamValue :=
  (r.parameters.find? (fun e => e.1 == key)).map (fun e => e.2)

/-- `agents.base.AgentResponse`.  The structured `data` payload is modelled
only by its presence. -/
structure AgentResponse where
  response : String
  success : Bool
  suggestions : List String
  hasData : Bool
deriving DecidableEq, Repr

/-- The flights returned by `FlightService`, abstracted to the string the
strftime-based pretty-printers `_format_flight_details` /
`_format_flight_results` would produce from their fields. -/
structure Flight where
  details : String
deriving DecidableEq, Repr

/-- `FlightAgent._format_flight_details` (the datetime formatting itself is
folded into `Flight.details`). -/
def _format_flight_details (f : Flight) : String := f.details

/-- Outcome of `FlightService.get_flight_details` as observed by the agent:
a flight, a raised `FlightNotFoundError`, or some other raised exception. -/
inductive DetailsOutcome where
  | ok (f : Flight)
  | notFound
  | err (e : PyExc)
deriving DecidableEq, Repr

/-- Result of one handler: the response it returns, or the exception that
escapes it, together with the number of backing `FlightService` calls made. -/
structure HandlerResult where
  outcome : Except PyExc AgentResponse
  serviceCalls : Nat
deriving DecidableEq, Repr

/-- `FlightAgent._handle_flight_status`: a missing/falsy `flight_number`
short-circuits before the service is touched; otherwise
`get_flight_details` is called and only `FlightNotFoundError` is caught. -/
def _handle_flight_status (svcDetails : DetailsOutcome) (request : AgentRequest) :
    HandlerResult :=
  let flight_number := request.get_parameter "flight_number"
  if !(truthy flight_number) then
    { outcome := .ok
        { response := "Please provide a flight number to check status."
          success := false, suggestions := ["Search flights"], hasData := false }
      serviceCalls := 0 }
  else
    match svcDetails with
    | .ok f =>
        { outcome := .ok
            { response := _format_flight_details f, success := true
              suggestions := ["Get updates", "View route map", "Check baggage policy"]
              hasData := true }
          serviceCalls := 1 }
    | .notFound =>
        { outcome := .ok
            { response := "Sorry, I couldn\x27t find that flight. Please check the flight number."
              success := false, suggestions := ["Search flights"], hasData := false }
          serviceCalls := 1 }
    | .err e => { outcome := .error e, serviceCalls := 1 }

/-- `FlightAgent._handle_flight_info`: same shape as `_handle_flight_status`
with the `flight_id` parameter. -/
def _handle_flight_info (svcDetails : DetailsOutcome) (request : AgentRequest) :
    HandlerResult :=
  let flight_id := request.get_parameter "flight_id"
  if !(truthy flight_id) then
    { outcome := .ok
        { response := "Please specify which flight you\x27d like to know more about."
          success := false, suggestions := ["Search flights", "Check flight status"]
          hasData := false }
      serviceCalls := 0 }
  else
    match svcDetails with
    | .ok f =>
        { outcome := .ok
            { response := _format_flight_details f, success := true
              suggestions := ["View baggage rules", "Compare with other flights"]
              hasData := true }
          serviceCalls := 1 }
    | .notFound =>
        { outcome := .ok
            { response := "Sorry, I couldn\x27t find that flight."
              success := false, suggestions := ["Search flights", "View popular routes"]
              hasData := false }
          serviceCalls := 1 }
    | .err e => { outcome := .error e, serviceCalls := 1 }

/-- `FlightAgent._handle_availability_check`: missing `flight_id` or `date`
short-circuits before the service is touched.  When both are present, the
source calls `FlightService.check_availability(flight_id=..., date=..., seats=...)`,
but `check_availability` declares no `date` parameter, so the invocation itself
raises `TypeError` before any request is issued; the surrounding try only
catches `FlightNotFoundError`, so the `TypeError` escapes. -/
def _handle_availability_check (request : AgentRequest) : HandlerResult :=
  let flight_id := request.get_parameter "flight_id"
  let date_str := request.get_parameter "date"
  if !(truthy flight_id && truthy date_str) then
    { outcome := .ok
        { response := "Please provide the flight and date to check availability."
          success := false, suggestions := ["Search flights first", "View flight schedule"]
          hasData := false }
      serviceCalls := 0 }
  else
    { outcome := .error .typeError, serviceCalls := 0 }

/-- Combined outcome of the `_handle_flight_search` pipeline
(`extract_flight_information`, `FlightSearchParams(**...)`,
`FlightService.search_flights`, `_format_flight_results`), which the handler
wraps whole in try/except. -/
inductive SearchOutcome where
  | flights (formatted : String) (isEmpty : Bool)
  | validationFailure (msg : String)
  | err (e : PyExc)
deriving DecidableEq, Repr

/-- `FlightAgent._handle_flight_search`: never raises — its own
`except ValidationError` / `except Exception` clauses turn every failure into
a `success=false` response.  Backing calls made by the pipeline are accounted
inside the oracle, not here. -/
def _handle_flight_search (pipeline : SearchOutcome) : HandlerResult :=
  match pipeline with
  | .flights formatted isEmpty =>
      if isEmpty then
        { outcome := .ok
            { response := "No flights found matching your criteria. Would you like to try different options?"
              success := true
              suggestions := ["Try different dates", "Check nearby airports",
                "Adjust price range", "Specify different airlines"]
              hasData := false }
          serviceCalls := 0 }
      else
        { outcome := .ok
            { response := formatted, success := true
              suggestions := ["View more details", "Compare flights", "Refine search"]
              hasData := true }
          serviceCalls := 0 }
  | .validationFailure msg =>
      { outcome := .ok
          { response := "Invalid search parameters: " ++ msg, success := false
            suggestions := ["Try again", "Specify your search correctly"], hasData := false }
        serviceCalls := 0 }
  | .err e =>
      { outcome := .ok
          { response := "Failed to search flights: " ++ e.msg, success := false
            suggestions := ["Try again", "Check your input"], hasData := false }
        serviceCalls := 0 }

/-- `request.get_parameter("intent", "").lower()`: absent means the default
`""`; a non-string value has no `.lower()` and raises `AttributeError`. -/
def intent_lower (request : AgentRequest) : Except PyExc String :=
  match request.get_parameter "intent" with
  | none => .ok ""
  | some (.str s) => .ok (py_lower s)
  | some _ => .error (.exc "AttributeError: lower")

/-- The intent dispatch inside the try block of `FlightAgent.process`,
including the fallback response for unsupported intents. -/
def dispatch_flight_intent (pipeline : SearchOutcome) (svcDetails : DetailsOutcome)
    (request : AgentRequest) : HandlerResult :=
  match intent_lower request with
  | .error e => { outcome := .error e, serviceCalls := 0 }
  | .ok intent =>
    if intent == "search_flights" then _handle_flight_search pipeline
    else if intent == "flight_info" then _handle_flight_info svcDetails request
    else if intent == "check_availability" then _handle_availability_check request
    else if intent == "flight_status" then _handle_flight_status svcDetails request
    else
      { outcome := .ok
          { response := "I\x27m not sure how to help with that. Would you like to search for flights?"
            success := false
            suggestions := ["Search flights", "Check flight status", "View popular routes"]
            hasData := false }
        serviceCalls := 0 }

/-- The except clauses of `FlightAgent.process`: `ValidationError`,
`FlightNotFoundError` and finally `Exception` each become a `success=false`
response; nothing escapes. -/
def process_wrap (inner : HandlerResult) : AgentResponse :=
  match inner.outcome with
  | .ok r => r
  | .error (.validationError _) =>
      { response := "Invalid input: Please review your request and try again."
        success := false, suggestions := ["Try again", "Check your input"], hasData := false }
  | .error (.flightNotFoundError _) =>
      { response := "I couldn\x27t find any flights matching your criteria. Please try adjusting your search parameters."
        success := false, suggestions := ["Try again", "Refine your search"], hasData := false }
  | .error _ =>
      { response := "Sorry, an unexpected error occurred. Please try again later."
        success := false, suggestions := [], hasData := false }

/-- `FlightAgent.process`. -/
def process (pipeline : SearchOutcome) (svcDetails : DetailsOutcome)
    (request : AgentRequest) : AgentResponse :=
  process_wrap (dispatch_flight_intent pipeline svcDetails request)

end FlightAgent

/-! ## Concrete inputs used by counterexamples and witnesses -/

/-- A conversation created at time 0. -/
def convA : Conversation :=
  { id := "s1", user_id := "u1", context := { user_id := "u1" }
    messages := [], created_at := 0, updated_at := 0, active := true }

/-- A store holding one session, last active at time 0. -/
def storeA : Orchestrator.SessionStore := [("s1", convA, 0)]

/-- A skill oracle on which every `kernel.invoke` call succeeds. -/
def okSkill : Orchestrator.SkillInvocation → Except PyExc String :=
  fun _ => .ok "Here are some options."

/-- A skill oracle on which every `kernel.invoke` call raises. -/
def errSkill : Orchestrator.SkillInvocation → Except PyExc String :=
  fun _ => .error (.exc "kernel failure")

/-- The spec's compound message naming two capabilities. -/
def compoundMsg : String := "find a flight to Paris and a hotel near the Eiffel Tower"

/-- A message naming both the excursion and the flight capability. -/
def excurFlightMsg : String := "book an excursion and a flight"

/-- String-level `json.loads` oracle on which nothing parses. -/
def noParse : String → Option AzureOpenAI.PyValue := fun _ => none

/-- LLM oracle whose completion content is never valid JSON. -/
def badLLM : Nat → AzureOpenAI.OpenAIOutcome := fun _ => .content none

/-- A `flight_status` request missing its required `flight_number`. -/
def reqStatusMissing : FlightAgent.AgentRequest :=
  { input := "what is the status of my flight"
    parameters := [("intent", .str "flight_status")] }

/-- A `check_availability` request missing `flight_id` and `date`. -/
def reqAvailMissing : FlightAgent.AgentRequest :=
  { input := "is that flight available"
    parameters := [("intent", .str "check_availability")] }

/-- A complete `flight_status` request. -/
def reqStatusFull : FlightAgent.AgentRequest :=
  { input := "status of AA100"
    parameters := [("intent", .str "flight_status"), ("flight_number", .str "AA100")] }

/-- A search pipeline oracle that returns formatted flights. -/
def pipelineOk : FlightAgent.SearchOutcome :=
  .flights "Here are the available flights" false

/-! ## Session-store lemmas -/

open Orchestrator FlightService AzureOpenAI FlightAgent

theorem storeGet_eq_none_iff {s : SessionStore} {i : String} :
    storeGet s i = none ↔ ∀ e ∈ s, e.1 ≠ i := by
  simp [storeGet, List.find?_eq_none]

theorem storeAny_eq_false_iff {s : SessionStore} {i : String} :
    s.any (fun e => e.1 == i) = false ↔ storeGet s i = none := by
  simp [storeGet_eq_none_iff, List.any_eq_false]

theorem cleanup_session_of_none {s : SessionStore} {i : String}
    (h : storeGet s i = none) : cleanup_session i s = s := by
  have hb := storeAny_eq_false_iff.mpr h
  simp [cleanup_session, hb]

theorem storeGet_cleanup_session_self (i : String) (s : SessionStore) :
    storeGet (cleanup_session i s) i = none := by
  unfold cleanup_session
  by_cases hb : s.any (fun e => e.1 == i) = true
  · rw [if_pos hb, storeGet_eq_none_iff]
    intro e he
    simpa using (List.mem_filter.mp he).2
  · rw [if_neg hb]
    exact storeAny_eq_false_iff.mp (Bool.eq_false_iff.mpr hb)

theorem storeGet_cleanup_session_none {s : SessionStore} {i : String} (j : String)
    (h : storeGet s i = none) : storeGet (cleanup_session j s) i = none := by
  unfold cleanup_session
  by_cases hb : s.any (fun e => e.1 == j) = true
  · rw [if_pos hb, storeGet_eq_none_iff]
    intro e he
    exact storeGet_eq_none_iff.mp h e (List.mem_filter.mp he).1
  · rwa [if_neg hb]

theorem storeGet_foldl_cleanup_none (ids : List String) {i : String}
    (s : SessionStore) (h : storeGet s i = none) :
    storeGet (ids.foldl (fun t j => cleanup_session j t) s) i = none := by
  induction ids generalizing s with
  | nil => exact h
  | cons j rest ih => exact ih _ (storeGet_cleanup_session_none j h)

theorem storeGet_foldl_cleanup_mem (ids : List String) {i : String}
    (s : SessionStore) :
    i ∈ ids → storeGet (ids.foldl (fun t j => cleanup_session j t) s) i = none := by
  induction ids generalizing s with
  | nil => intro hmem; cases hmem
  | cons j rest ih =>
    intro hmem
    rcases List.mem_cons.mp hmem with hj | hj
    · rw [hj]
      exact storeGet_foldl_cleanup_none rest _ (storeGet_cleanup_session_self j s)
    · exact ih _ hj

theorem storeGet_sweep_of_expired {now t : Int} {i : String} {s : SessionStore}
    {c : Conversation}
    (hfound : storeGet s i = some (c, t)) (hexp : now - t > SESSION_TIMEOUT) :
    storeGet (_cleanup_expired_sessions now s) i = none := by
  unfold _cleanup_expired_sessions
  apply storeGet_foldl_cleanup_mem
  unfold storeGet at hfound
  obtain ⟨e, hfind, he2⟩ := Option.map_eq_some'.mp hfound
  have hmem : e ∈ s := List.mem_of_find?_eq_some hfind
  have hkey : e.1 = i := by simpa using List.find?_some hfind
  refine List.mem_map.mpr ⟨e, List.mem_filter.mpr ⟨hmem, ?_⟩, hkey⟩
  have ht : e.2.2 = t := by rw [he2]
  simp [ht, hexp]

theorem storeGet_storeSet_self (s : SessionStore) (i : String) (v : Conversation × Int) :
    storeGet (storeSet s i v) i = some v := by
  induction s with
  | nil => simp [storeSet, storeGet]
  | cons e t ih =>
    by_cases hk : e.1 = i
    · simp [storeSet, storeGet, hk]
    · by_cases hb : t.any (fun x => x.1 == i) = true
      · have ih' := ih
        simp [storeSet, storeGet, hk, hb] at ih' ⊢
        exact ih'
      · have ih' := ih
        simp [storeSet, storeGet, hk, hb, Bool.not_eq_true] at ih' ⊢
        exact ih'

/-! ## C1 — session expiry and the two retrieval operations -/

/-- C1 (counterexample): with one session last active at time 0 and the clock
at 31 minutes — more than the 30-minute TTL in the past —
`load_conversation_history` still returns the stored session, so the expired
session is reachable and distinguishable from a never-seen id (for which the
same call returns `none`). -/
theorem load_conversation_history_returns_expired :
    (31 : Int) - 0 > SESSION_TIMEOUT ∧
    load_conversation_history "s1" storeA = some (convA, 0) ∧
    load_conversation_history "s1" storeA ≠ none ∧
    load_conversation_history "never-seen" storeA = none := by
  decide

/-- C1 (amended): when the stored entry for an id is more than the TTL in the
past, `get_conversation` behaves as if the session was never created — it
returns `none` and evicts the entry — and the next `save_conversation_state`
creates a fresh session containing only the newly appended message.
`load_conversation_history`, however, performs no expiry check and still
returns the expired entry. -/
theorem expired_session_get_vs_load (now t : Int) (i uid m r : String)
    (s : SessionStore) (c : Conversation)
    (hfound : storeGet s i = some (c, t))
    (hexp : now - t > SESSION_TIMEOUT) :
    (get_conversation now i s).1 = none ∧
    storeGet (get_conversation now i s).2 i = none ∧
    storeGet (save_conversation_state now uid i m r s) i =
      some ({ id := i, user_id := uid, context := { user_id := uid }
              messages := [{ content := m, role := r, timestamp := now }]
              created_at := now, updated_at := now, active := true }, now) ∧
    load_conversation_history i s = some (c, t) := by
  have hswept : storeGet (_cleanup_expired_sessions now s) i = none :=
    storeGet_sweep_of_expired hfound hexp
  have hb : (_cleanup_expired_sessions now s).any (fun e => e.1 == i) = false :=
    storeAny_eq_false_iff.mpr hswept
  refine ⟨?_, ?_, ?_, hfound⟩
  · simp only [get_conversation]
    rw [hswept]
  · simp only [get_conversation]
    rw [hswept]
    exact hswept
  · simp only [save_conversation_state, hb, Bool.false_eq_true, if_false,
      storeGet_storeSet_self]
    simp [Conversation.add_message]

/-- Witness for the amended C1 at the concrete expired store `storeA`. -/
theorem expired_session_get_vs_load_witness :
    (get_conversation 31 "s1" storeA).1 = none ∧
    storeGet (get_conversation 31 "s1" storeA).2 "s1" = none ∧
    storeGet (save_conversation_state 31 "u2" "s1" "hello" "user" storeA) "s1" =
      some ({ id := "s1", user_id := "u2", context := { user_id := "u2" }
              messages := [{ content := "hello", role := "user", timestamp := 31 }]
              created_at := 31, updated_at := 31, active := true }, 31) ∧
    load_conversation_history "s1" storeA = some (convA, 0) :=
  expired_session_get_vs_load 31 0 "s1" "u2" "hello" "user" storeA convA
    (by decide) (by decide)

/-! ## C10 — totality and idempotence of `cleanup_session` -/

/-- C10: `cleanup_session` is total and idempotent: removing an id that is not
in the store leaves it unchanged (and raises nothing), and applying it twice in
a row has the same effect on the store as applying it once. -/
theorem cleanup_session_total_idempotent (conversation_id : String)
    (store : SessionStore) :
    (storeGet store conversation_id = none →
      cleanup_session conversation_id store = store) ∧
    cleanup_session conversation_id (cleanup_session conversation_id store) =
      cleanup_session conversation_id store :=
  ⟨cleanup_session_of_none,
   cleanup_session_of_none (storeGet_cleanup_session_self conversation_id store)⟩

/-- Witness for C10 on the concrete store `storeA`. -/
theorem cleanup_session_total_idempotent_witness :
    cleanup_session "zz" storeA = storeA ∧
    cleanup_session "s1" (cleanup_session "s1" storeA) =
      cleanup_session "s1" storeA :=
  ⟨(cleanup_session_total_idempotent "zz" storeA).1 (by decide),
   (cleanup_session_total_idempotent "s1" storeA).2⟩

/-! ## C8 — append-only message list -/

/-- C8: after `n` `add_message` calls the message list is the original list
followed by the `n` new messages in call order — no call removes or reorders
earlier messages — and its length grows by exactly `n` (so a session whose
list starts empty has exactly `n` messages after `n` appends). -/
theorem add_message_append_only (c : Conversation)
    (calls : List (String × String × Int)) :
    (add_messages c calls).messages =
      c.messages ++ calls.map (fun p =>
        { content := p.1, role := p.2.1, timestamp := p.2.2 }) ∧
    (add_messages c calls).messages.length = c.messages.length + calls.length := by
  have key : ∀ c₀ : Conversation, (add_messages c₀ calls).messages =
      c₀.messages ++ calls.map (fun p =>
        { content := p.1, role := p.2.1, timestamp := p.2.2 }) := by
    induction calls with
    | nil => intro c₀; simp [add_messages]
    | cons p rest ih =>
      intro c₀
      have hstep : add_messages c₀ (p :: rest) =
          add_messages (c₀.add_message p.1 p.2.1 p.2.2) rest := rfl
      rw [hstep, ih]
      simp [Conversation.add_message]
  refine ⟨key c, ?_⟩
  rw [key c]
  simp

/-! ## C2 / C4 — the resilient call wrapper -/

/-- C2 (code divergence, evaluated): a non-transient HTTP 4xx failure is NOT
returned immediately as `APIError` after the first attempt.  Because
`except aiohttp.ClientError` precedes `except aiohttp.ClientResponseError` in
`_call_api` and the latter is a subclass of the former, a 404 response error is
treated as retriable: all 3 attempts run, two backoff sleeps are performed, and
the call finally raises `APIConnectionError` — `APIError` is never raised. -/
theorem call_api_respError_is_retried :
    (FlightService._call_api resp404).attempts = [1, 2, 3] ∧
    (FlightService._call_api resp404).sleeps = [2, 4] ∧
    (FlightService._call_api resp404).result =
      .apiConnectionError (.respError 404 "Not Found") ∧
    (FlightService._call_api resp404).attempts ≠ [1] := by
  decide

/-- C4: when the underlying operation fails with a transient connection error
on 3 consecutive attempts, `_call_api` raises `APIConnectionError` wrapping the
last underlying failure, makes no 4th attempt, and the backoff waits
(`2^k` seconds before retrying attempt `k`) are non-decreasing. -/
theorem call_api_transient_exhaustion (outcomes : Nat → FlightService.AttemptOutcome)
    (m1 m2 m3 : String)
    (h1 : outcomes 1 = .connError m1)
    (h2 : outcomes 2 = .connError m2)
    (h3 : outcomes 3 = .connError m3) :
    (FlightService._call_api outcomes).result = .apiConnectionError (.connError m3) ∧
    (FlightService._call_api outcomes).attempts = [1, 2, 3] ∧
    (FlightService._call_api outcomes).sleeps = [2, 4] ∧
    (FlightService._call_api outcomes).sleeps.Chain' (· ≤ ·) := by
  have e : FlightService._call_api outcomes =
      FlightService.callApiLoop outcomes [1, 2, 3] := rfl
  rw [e]
  simp [FlightService.callApiLoop, h1, h2, h3,
    FlightService.AttemptOutcome.isClientError, FlightService.max_retries]

/-- Witness for C4 at the concrete oracle `connRefused`. -/
theorem call_api_transient_exhaustion_witness :
    (FlightService._call_api connRefused).result =
      .apiConnectionError (.connError "Connection refused") ∧
    (FlightService._call_api connRefused).attempts = [1, 2, 3] ∧
    (FlightService._call_api connRefused).sleeps = [2, 4] ∧
    (FlightService._call_api connRefused).sleeps.Chain' (· ≤ ·) :=
  call_api_transient_exhaustion connRefused
    "Connection refused" "Connection refused" "Connection refused" rfl rfl rfl

/-! ## C3 — compound messages are not coordinated -/

/-- C3 (counterexample): on the spec's compound flight+hotel message the
orchestrator performs no coordination: only the hotel skill is invoked (the
first matching keyword in the `elif` chain), the flight skill is not
dispatched, and no per-provider parameter split exists — the one invocation
carries the whole raw message as its single `input` argument. -/
theorem compound_message_single_dispatch :
    (process_user_input okSkill 0 "u1" "c1" compoundMsg []).invoked =
      [.search_hotels compoundMsg] ∧
    Orchestrator.SkillInvocation.search_flights compoundMsg ∉
      (process_user_input okSkill 0 "u1" "c1" compoundMsg []).invoked := by
  decide

/-- C3 (amended): a message naming both the flight and the hotel capability
(and neither excursion nor restaurant) is dispatched to exactly one provider,
the hotel skill — hotel precedes flight in the `elif` chain — and the flight
skill is not invoked for that turn; no coordination flag or per-provider
parameter split is produced. -/
theorem compound_flight_hotel_dispatches_hotel_only
    (skill : SkillInvocation → Except PyExc String) (now : Int)
    (uid cid message : String) (store : SessionStore)
    (hh : strContains (py_lower message) "hotel" = true)
    (hne : strContains (py_lower message) "excursion" = false)
    (hnr : strContains (py_lower message) "restaurant" = false) :
    (process_user_input skill now uid cid message store).invoked =
      [.search_hotels message] ∧
    SkillInvocation.search_flights message ∉
      (process_user_input skill now uid cid message store).invoked := by
  have hd : dispatch_skill (py_lower message) message =
      some (.search_hotels message) := by
    simp [dispatch_skill, hh, hne, hnr]
  have hi : (process_user_input skill now uid cid message store).invoked =
      [.search_hotels message] := by
    simp only [process_user_input, hd]
    cases hsk : skill (.search_hotels message) <;> simp
  refine ⟨hi, ?_⟩
  rw [hi]
  simp

/-- Witness for the amended C3 on the spec's compound message. -/
theorem compound_flight_hotel_dispatches_hotel_only_witness :
    (process_user_input okSkill 5 "u1" "c1" compoundMsg storeA).invoked =
      [.search_hotels compoundMsg] ∧
    SkillInvocation.search_flights compoundMsg ∉
      (process_user_input okSkill 5 "u1" "c1" compoundMsg storeA).invoked :=
  compound_flight_hotel_dispatches_hotel_only okSkill 5 "u1" "c1" compoundMsg storeA
    (by decide) (by decide) (by decide)

/-! ## C9 — dispatch priority versus suggestion priority -/

/-- C9: the dispatch chain scans keywords in the order excursion, restaurant,
hotel, flight (first match wins) while `_generate_suggestions` scans flight,
hotel, restaurant, excursion; hence for a message naming both an excursion and
a flight the excursion skill handles the turn, yet the suggestions attached to
the successful reply are the flight ones. -/
theorem dispatch_vs_suggestions_priority
    (skill : SkillInvocation → Except PyExc String) (now : Int)
    (uid cid message : String) (store : SessionStore) (reply : String)
    (he : strContains (py_lower message) "excursion" = true)
    (hf : strContains (py_lower message) "flight" = true)
    (hsk : skill (.search_excursions message) = .ok reply) :
    (process_user_input skill now uid cid message store).invoked =
      [.search_excursions message] ∧
    _generate_suggestions (py_lower message) =
      ["Check flight prices", "View flight details", "Compare airlines"] ∧
    (process_user_input skill now uid cid message store).result.suggestions =
      some ["Check flight prices", "View flight details", "Compare airlines"] := by
  have hd : dispatch_skill (py_lower message) message =
      some (.search_excursions message) := by
    simp [dispatch_skill, he]
  have hg : _generate_suggestions (py_lower message) =
      ["Check flight prices", "View flight details", "Compare airlines"] := by
    simp [_generate_suggestions, hf]
  refine ⟨?_, hg, ?_⟩
  · simp only [process_user_input, hd, hsk]
  · simp only [process_user_input, hd, hsk, hg]

/-- Witness for C9 on a concrete excursion-and-flight message. -/
theorem dispatch_vs_suggestions_priority_witness :
    (process_user_input okSkill 0 "u1" "c1" excurFlightMsg []).invoked =
      [.search_excursions excurFlightMsg] ∧
    _generate_suggestions (py_lower excurFlightMsg) =
      ["Check flight prices", "View flight details", "Compare airlines"] ∧
    (process_user_input okSkill 0 "u1" "c1" excurFlightMsg []).result.suggestions =
      some ["Check flight prices", "View flight details", "Compare airlines"] :=
  dispatch_vs_suggestions_priority okSkill 0 "u1" "c1" excurFlightMsg []
    "Here are some options." (by decide) (by decide) rfl

/-! ## C7 — failures never propagate -/

/-- C7: failures during message processing never escape to the caller:
whatever a skill invocation does, `process_user_input` returns a plain dict —
`success=true` on the normal paths, the generic apology with `success=false`
when the invocation raised — and any exception escaping a flight-agent handler
is converted by `FlightAgent.process` into a `success=false` response. -/
theorem failures_are_contained
    (skill : SkillInvocation → Except PyExc String) (now : Int)
    (uid cid message : String) (store : SessionStore)
    (pipeline : SearchOutcome) (svcDetails : DetailsOutcome)
    (request : AgentRequest) (e : PyExc)
    (hagent : (dispatch_flight_intent pipeline svcDetails request).outcome =
      .error e) :
    ((process_user_input skill now uid cid message store).result.success = true ∨
      (process_user_input skill now uid cid message store).result =
        { success := false
          response := "An error occurred while processing your request."
          suggestions := none }) ∧
    (FlightAgent.process pipeline svcDetails request).success = false := by
  constructor
  · simp only [process_user_input]
    cases hd : dispatch_skill (py_lower message) message with
    | none => simp
    | some inv =>
      cases hsk : skill inv with
      | ok r => simp [hsk]
      | error e2 => simp [hsk]
  · unfold FlightAgent.process process_wrap
    rw [hagent]
    cases e <;> simp

/-- Witness for C7: a raising skill oracle on the orchestrator side and a
raising service on the agent side. -/
theorem failures_are_contained_witness :
    ((process_user_input errSkill 0 "u1" "c1" "need a flight" []).result.success =
        true ∨
      (process_user_input errSkill 0 "u1" "c1" "need a flight" []).result =
        { success := false
          response := "An error occurred while processing your request."
          suggestions := none }) ∧
    (FlightAgent.process pipelineOk (.err (.exc "socket reset")) reqStatusFull).success =
      false :=
  failures_are_contained errSkill 0 "u1" "c1" "need a flight" [] pipelineOk
    (.err (.exc "socket reset")) reqStatusFull (.exc "socket reset") (by decide)

/-! ## C6 — missing required parameters short-circuit -/

/-- C6: a `flight_status` request without a truthy `flight_number`, and an
availability request missing `flight_id` or `date`, are answered immediately
with `success=false` and a prompt asking for the missing fields, and no
backing `FlightService` call is made. -/
theorem missing_params_short_circuit (svcDetails : DetailsOutcome)
    (req1 req2 : AgentRequest)
    (h1 : truthy (req1.get_parameter "flight_number") = false)
    (h2 : truthy (req2.get_parameter "flight_id") = false ∨
      truthy (req2.get_parameter "date") = false) :
    ((_handle_flight_status svcDetails req1).outcome = .ok
        { response := "Please provide a flight number to check status."
          success := false, suggestions := ["Search flights"], hasData := false } ∧
      (_handle_flight_status svcDetails req1).serviceCalls = 0) ∧
    ((_handle_availability_check req2).outcome = .ok
        { response := "Please provide the flight and date to check availability."
          success := false
          suggestions := ["Search flights first", "View flight schedule"]
          hasData := false } ∧
      (_handle_availability_check req2).serviceCalls = 0) := by
  constructor
  · constructor <;> simp [_handle_flight_status, h1]
  · rcases h2 with h2 | h2 <;> constructor <;>
      simp [_handle_availability_check, h2]

/-- Witness for C6 on concrete requests with the required fields absent. -/
theorem missing_params_short_circuit_witness :
    ((_handle_flight_status (.ok { details := "AA100 details" })
        reqStatusMissing).outcome = .ok
        { response := "Please provide a flight number to check status."
          success := false, suggestions := ["Search flights"], hasData := false } ∧
      (_handle_flight_status (.ok { details := "AA100 details" })
        reqStatusMissing).serviceCalls = 0) ∧
    ((_handle_availability_check reqAvailMissing).outcome = .ok
        { response := "Please provide the flight and date to check availability."
          success := false
          suggestions := ["Search flights first", "View flight schedule"]
          hasData := false } ∧
      (_handle_availability_check reqAvailMissing).serviceCalls = 0) :=
  missing_params_short_circuit (.ok { details := "AA100 details" })
    reqStatusMissing reqAvailMissing (by decide) (Or.inl (by decide))

/-! ## C5 — enhancement on malformed LLM output -/

/-- C5 (code divergence, evaluated): on completion content that is not valid
JSON, `enhance_flight_results` indeed degrades to the raw input without
raising, but `enhance_flight_details` propagates the `JSONDecodeError` that
`_call_openai` re-raises: the operation throws instead of returning the
original `flight_data`. -/
theorem enhance_flight_details_throws_on_malformed :
    enhance_flight_results badLLM (.list 7) = .list 7 ∧
    enhance_flight_details noParse (.content none) (.dict 3) =
      .error .jsonDecodeError := by
  decide

end RoamMind
